import Mathlib

/-!
Shallow embedding of the QuickQL fluent SQL query builder
(src/src/quickql/builder.py) together with proofs about its behavior.

Python strings are modelled as Lean `String`; the dynamically typed
positional arguments of clause methods are modelled by `PyVal`;
exceptions are modelled by the `QError` inductive, and a method that can
raise while mutating `self` is modelled as a function returning the
post-call state together with `Option QError` (so that mutations
performed before the exception are visible, exactly as in Python).
-/

/-- Dynamically typed Python value, covering the shapes relevant to
`QueryElement.create`: strings, `None`, ints, and list/tuple sequences. -/
inductive PyVal where
  | pyStr (s : String)
  | pyNone
  | pyInt (n : Int)
  | pyTuple (items : List PyVal)

/-- Characters for which Python `str.split()` / `str.strip()` treat a
character as whitespace. -/
def pyIsSpace (c : Char) : Bool :=
  c = ' ' || c = '\t' || c = '\n' || c = '\r' || c = '\x0b' || c = '\x0c'

/-- Characters treated as indentation by `textwrap.dedent`. -/
def isIndentChar (c : Char) : Bool :=
  c = ' ' || c = '\t'

def ofChars (l : List Char) : String := String.mk l

/-- Split a character list at every occurrence of `ch`, keeping empty
segments (Python `text.split(ch)` semantics). -/
def splitOnChar (ch : Char) : List Char → List (List Char)
  | [] => [[]]
  | c :: rest =>
    if c = ch then [] :: splitOnChar ch rest
    else
      match splitOnChar ch rest with
      | l :: ls => (c :: l) :: ls
      | [] => [[c]]

/-- Join a list of strings with a separator (Python `sep.join(parts)`). -/
def joinSep (sep : String) : List String → String
  | [] => ""
  | [x] => x
  | x :: y :: rest => x ++ sep ++ joinSep sep (y :: rest)

/-- Python `text.split()` (no argument): whitespace-separated tokens,
empty tokens discarded. -/
def pySplitWsAux (acc : List Char) : List Char → List String
  | [] => if acc.isEmpty then [] else [ofChars acc.reverse]
  | c :: rest =>
    if pyIsSpace c then
      if acc.isEmpty then pySplitWsAux [] rest
      else ofChars acc.reverse :: pySplitWsAux [] rest
    else pySplitWsAux (c :: acc) rest

def pySplitWs (s : String) : List String := pySplitWsAux [] s.data

/-- Python `text.rstrip()` on a character list. -/
def pyRStripL (l : List Char) : List Char :=
  (l.reverse.dropWhile pyIsSpace).reverse

/-- Python `text.rstrip()`. -/
def pyRStrip (s : String) : String := ofChars (pyRStripL s.data)

/-- Python `text.strip()`. -/
def pyStrip (s : String) : String :=
  ofChars ((pyRStripL s.data).dropWhile pyIsSpace)

def listStarts : List Char → List Char → Bool
  | [], _ => true
  | _ :: _, [] => false
  | x :: xs, y :: ys => x = y && listStarts xs ys

/-- Substring containment test (Python `needle in hay`). -/
def hasRun (needle : List Char) : List Char → Bool
  | [] => needle.isEmpty
  | c :: rest => listStarts needle (c :: rest) || hasRun needle rest

def strContains (hay needle : String) : Bool := hasRun needle.data hay.data

/-- A line consisting solely of spaces/tabs (and at least one of them);
`textwrap.dedent` normalizes such lines to empty. -/
def isWsOnlyLine (l : List Char) : Bool :=
  !l.isEmpty && l.all isIndentChar

def leadWs (l : List Char) : List Char := l.takeWhile isIndentChar

def commonLead : List Char → List Char → List Char
  | x :: xs, y :: ys => if x = y then x :: commonLead xs ys else []
  | _, _ => []

/-- Python `textwrap.dedent`: normalize whitespace-only lines to empty,
compute the longest common space/tab margin of the remaining lines, and
strip that margin from the start of every line carrying it. -/
def dedent (s : String) : String :=
  let lines := (splitOnChar '\n' s.data).map (fun l => if isWsOnlyLine l then [] else l)
  let indents := (lines.filter (fun l => !l.isEmpty)).map leadWs
  let margin :=
    match indents with
    | [] => []
    | i :: rest => rest.foldl commonLead i
  joinSep "\n" (lines.map (fun l =>
    if listStarts margin l then ofChars (l.drop margin.length) else ofChars l))

/-- `_normalize_sql(text)` of the builder: `textwrap.dedent(str(text).rstrip()).strip()`,
applied after the argument has already been converted to a string. -/
def _normalize_sql (s : String) : String := pyStrip (dedent (pyRStrip s))

/-- `_indent_text(text)` of the builder: `textwrap.indent(text, "    ")` —
prefix four spaces to every line whose stripped content is non-empty. -/
def _indent_text (text : String) : String :=
  joinSep "\n" (((splitOnChar '\n' text.data).map ofChars).map
    (fun l => if pyStrip l = "" then l else "    " ++ l))

/-- Python `str(v)` for the values reachable from clause-method pair items.
Scalars follow CPython exactly; a nested tuple is rendered from the repr of
its items one level deep (deeper nesting does not occur in this development). -/
def sqChar : Char := Char.ofNat 39

def pyAtomRepr : PyVal → String
  | .pyStr s => ofChars [sqChar] ++ s ++ ofChars [sqChar]
  | .pyNone => "None"
  | .pyInt n => toString n
  | .pyTuple _ => "(...)"

def PyVal.str : PyVal → String
  | .pyStr s => s
  | .pyNone => "None"
  | .pyInt n => toString n
  | .pyTuple items =>
    "(" ++ joinSep ", " (items.map pyAtomRepr) ++ (if items.length = 1 then ",)" else ")")

/-- The `SQLKeyword` enum of the builder, in its source enumeration order. -/
inductive SQLKeyword where
  | WITH
  | SELECT
  | FROM
  | WHERE
  | GROUP_BY
  | HAVING
  | ORDER_BY
  | LIMIT
deriving DecidableEq

def SQLKeyword.value : SQLKeyword → String
  | .WITH => "WITH"
  | .SELECT => "SELECT"
  | .FROM => "FROM"
  | .WHERE => "WHERE"
  | .GROUP_BY => "GROUP BY"
  | .HAVING => "HAVING"
  | .ORDER_BY => "ORDER BY"
  | .LIMIT => "LIMIT"

/-- Iteration order of the `SQLKeyword` enum (also the render order). -/
def keywordList : List SQLKeyword :=
  [.WITH, .SELECT, .FROM, .WHERE, .GROUP_BY, .HAVING, .ORDER_BY, .LIMIT]

/-- `SQLKeyword(s)` value lookup; `none` models the `ValueError` branch. -/
def SQLKeyword.ofString? (s : String) : Option SQLKeyword :=
  keywordList.find? (fun k => k.value == s)

/-- The `SQLFlag` enum of the builder. -/
inductive SQLFlag where
  | DISTINCT
  | ALL
deriving DecidableEq

def SQLFlag.value : SQLFlag → String
  | .DISTINCT => "DISTINCT"
  | .ALL => "ALL"

def flagList : List SQLFlag := [.DISTINCT, .ALL]

/-- `SQLFlag(s)` value lookup; `none` models the `ValueError` branch. -/
def SQLFlag.ofString? (s : String) : Option SQLFlag :=
  flagList.find? (fun f => f.value == s)

/-- Exceptions raised by the builder, by kind and payload (Python raises
`ValueError` with a message naming these data, and an `IndexError` when an
empty clause name makes `parts[0]` fail). -/
inductive QError where
  | invalidArgument (arg : PyVal)
  | unsupportedClause (name : String)
  | flagConflict (oldFlag newFlag : String)
  | indexError

/-- The `QueryElement` dataclass. -/
structure QueryElement where
  value : String
  «alias» : String := ""
  join_keyword : String := ""
  is_subquery : Bool := false
deriving DecidableEq

/-- `QueryElement.create(arg, **kwargs)`: a plain string is normalized into
`value`; a two-item list/tuple is unpacked as `(alias, value)` with both items
passed through `str()` and normalized; every other shape raises
`ValueError(f"Invalid argument format: {arg!r}")`. -/
def QueryElement.create (arg : PyVal) (join_keyword : String) (is_subquery : Bool) :
    Except QError QueryElement :=
  match arg with
  | .pyStr s =>
    .ok { value := _normalize_sql s, join_keyword := join_keyword, is_subquery := is_subquery }
  | .pyTuple [a, v] =>
    .ok { value := _normalize_sql (PyVal.str v), «alias» := _normalize_sql (PyVal.str a),
          join_keyword := join_keyword, is_subquery := is_subquery }
  | _ => .error (.invalidArgument arg)

/-- The `ClauseCollection` class: accumulated elements plus at most one flag. -/
structure ClauseCollection where
  elements : List QueryElement
  flag : Option String
deriving DecidableEq

def ClauseCollection.init : ClauseCollection := { elements := [], flag := none }

def ClauseCollection.add_element (c : ClauseCollection) (e : QueryElement) : ClauseCollection :=
  { c with elements := c.elements ++ [e] }

/-- Python truthiness of `self.flag` (`None` and `""` are falsy). -/
def ClauseCollection.flagTruthy (c : ClauseCollection) : Bool :=
  match c.flag with
  | none => false
  | some s => s != ""

/-- `ClauseCollection.set_flag`: raises if a (truthy) flag is already set,
otherwise records the flag. -/
def ClauseCollection.set_flag (c : ClauseCollection) (f : String) :
    Except QError ClauseCollection :=
  if c.flagTruthy then .error (.flagConflict (c.flag.getD "") f)
  else .ok { c with flag := some f }

/-- `ClauseCollection.is_empty`: emptiness is judged on `elements` alone. -/
def ClauseCollection.is_empty (c : ClauseCollection) : Bool :=
  c.elements.length == 0

/-- The `Query` builder: one `ClauseCollection` per keyword. -/
structure Query where
  clauses : SQLKeyword → ClauseCollection

def Query.init : Query := ⟨fun _ => ClauseCollection.init⟩

def Query.setClause (q : Query) (k : SQLKeyword) (c : ClauseCollection) : Query :=
  ⟨fun k2 => if k2 = k then c else q.clauses k2⟩

/-- `Query.JOIN_ALIASES`, in source (insertion) order — the order is
significant because resolution takes the first substring match. -/
def Query.JOIN_ALIASES : List (String × String) :=
  [("JOIN", "FROM"), ("INNER JOIN", "FROM"), ("LEFT JOIN", "FROM"),
   ("RIGHT JOIN", "FROM"), ("FULL JOIN", "FROM"), ("CROSS JOIN", "FROM")]

/-- `Query._resolve_join_alias`: first alias whose marker occurs as a
substring of the clause name wins; the original name is kept verbatim as the
join keyword. -/
def Query._resolve_join_alias (clause_name : String) : String × String :=
  match Query.JOIN_ALIASES.find? (fun p => strContains clause_name p.1) with
  | some p => (p.2, clause_name)
  | none => (clause_name, "")

/-- `Query.FLAGGABLE_KEYWORDS`: only SELECT registers flags. -/
def Query.FLAGGABLE_KEYWORDS : SQLKeyword → Option (List SQLFlag)
  | .SELECT => some [.DISTINCT, .ALL]
  | _ => none

/-- `Query.SUBQUERY_KEYWORDS`. -/
def Query.SUBQUERY_KEYWORDS : List SQLKeyword := [.WITH]

/-- `Query._parse_flag`: split the clause name on whitespace; with a single
token return it untouched; otherwise inspect only the first two tokens, and
collapse to `(first, second)` exactly when the first is a flaggable keyword
and the second one of its registered flags.  Zero tokens make `parts[0]`
raise an `IndexError`. -/
def Query._parse_flag (clause_name : String) : Except QError (String × String) :=
  match pySplitWs clause_name with
  | [] => .error .indexError
  | [_] => .ok (clause_name, "")
  | base :: potential_flag :: _ =>
    match SQLKeyword.ofString? base with
    | none => .ok (clause_name, "")
    | some keyword =>
      match Query.FLAGGABLE_KEYWORDS keyword with
      | none => .ok (clause_name, "")
      | some fls =>
        match SQLFlag.ofString? potential_flag with
        | none => .ok (clause_name, "")
        | some fl =>
          if fls.contains fl then .ok (base, potential_flag)
          else .ok (clause_name, "")

/-- The element-appending loop at the end of `Query.add`: elements are
created and appended one at a time, so a failure on a later argument leaves
the earlier appends in place (the returned state is the mutated one). -/
def Query.addElems (q : Query) (kw : SQLKeyword) (jk : String) :
    List PyVal → Query × Option QError
  | [] => (q, none)
  | a :: rest =>
    match QueryElement.create a jk (Query.SUBQUERY_KEYWORDS.contains kw) with
    | .error e => (q, some e)
    | .ok el =>
      Query.addElems (q.setClause kw ((q.clauses kw).add_element el)) kw jk rest

/-- `Query.add(clause_name, *args)`: join-alias resolution, flag parsing,
keyword lookup, flag application, then the element loop.  The returned pair
is the post-call state and the raised exception, if any. -/
def Query.add (q : Query) (clause_name : String) (args : List PyVal) :
    Query × Option QError :=
  match Query._parse_flag (Query._resolve_join_alias clause_name).1 with
  | .error e => (q, some e)
  | .ok af =>
    match SQLKeyword.ofString? af.1 with
    | none => (q, some (.unsupportedClause af.1))
    | some keyword =>
      if af.2 != "" then
        match (q.clauses keyword).set_flag af.2 with
        | .error e => (q, some e)
        | .ok cc2 =>
          Query.addElems (q.setClause keyword cc2) keyword
            (Query._resolve_join_alias clause_name).2 args
      else
        Query.addElems q keyword (Query._resolve_join_alias clause_name).2 args

/-- Which keyword an `add` call with this clause name targets, when
resolution succeeds (derived from the first three steps of `add`). -/
def Query.resolveKw (clause_name : String) : Option SQLKeyword :=
  match Query._parse_flag (Query._resolve_join_alias clause_name).1 with
  | .error _ => none
  | .ok af => SQLKeyword.ofString? af.1

/-- One step of `Query._group_elements_by_join`: append to the group with
this join key if present, otherwise start a new group at the end. -/
def Query.insertGroup (groups : List (String × List QueryElement)) (el : QueryElement) :
    List (String × List QueryElement) :=
  if groups.any (fun p => p.1 == el.join_keyword) then
    groups.map (fun p => if p.1 == el.join_keyword then (p.1, p.2 ++ [el]) else p)
  else groups ++ [(el.join_keyword, [el])]

/-- `Query._group_elements_by_join`: an insertion-ordered dict seeded with a
default `""` group. -/
def Query._group_elements_by_join (elements : List QueryElement) :
    List (String × List QueryElement) :=
  elements.foldl Query.insertGroup [("", [])]

/-- `Query.CLAUSE_SEPARATORS` lookup with `DEFAULT_SEPARATOR` fallback. -/
def Query.clauseSeparator : SQLKeyword → String
  | .WHERE => " AND "
  | .HAVING => " AND "
  | _ => ", "

/-- `Query._format_element`: wrap subqueries in parentheses, then apply the
alias; WITH renders `alias AS value`, all other keywords `value AS alias`. -/
def Query._format_element (keyword : SQLKeyword) (el : QueryElement) : String :=
  let value := if el.is_subquery then "(\n" ++ _indent_text el.value ++ "\n)" else el.value
  if el.«alias» != "" then
    if keyword = SQLKeyword.WITH then el.«alias» ++ " AS " ++ value
    else value ++ " AS " ++ el.«alias»
  else value

/-- Parts contributed to `build`'s output by one keyword: nothing when the
store is empty; otherwise the (possibly flagged) keyword line followed, for
every join group, by the group key line (when non-empty) and the indented,
separator-joined element line — the latter appended unconditionally, even
when the group holds no elements. -/
def Query.renderClause (kw : SQLKeyword) (c : ClauseCollection) : List String :=
  if c.is_empty then []
  else
    (match c.flag with
     | some f => if f == "" then kw.value else kw.value ++ " " ++ f
     | none => kw.value) ::
    ((Query._group_elements_by_join c.elements).map (fun g =>
      (if g.1 == "" then [] else [g.1]) ++
      [_indent_text (joinSep (Query.clauseSeparator kw) (g.2.map (Query._format_element kw)))])).flatten

/-- `Query.build`: walk the keywords in enumeration order and join all
emitted parts with newlines. -/
def Query.build (q : Query) : String :=
  joinSep "\n" ((keywordList.map (fun kw => Query.renderClause kw (q.clauses kw))).flatten)

/-- Python `name.isupper()` restricted to the ASCII names used here: at
least one letter, and no lowercase letter. -/
def pyIsUpper (s : String) : Bool :=
  s.data.any (fun c => c.isAlpha) && s.data.all (fun c => !c.isAlpha || c.isUpper)

def underscoreToSpace (s : String) : String :=
  ofChars (s.data.map (fun c => if c = '_' then ' ' else c))

/-- `Query.__getattr__`: an all-uppercase name becomes an `add` call with
underscores replaced by spaces; anything else raises `AttributeError`
(modelled by `none`). -/
def Query.getattr (q : Query) (name : String) (args : List PyVal) :
    Option (Query × Option QError) :=
  if pyIsUpper name then some (q.add (underscoreToSpace name) args) else none

/-- The eight clause stores in enumeration order (used to state that a
failed call left the whole builder unchanged). -/
def Query.stores (q : Query) : List ClauseCollection :=
  keywordList.map q.clauses

/-! ### Error behavior of `add` -/

lemma create_error_eq (a : PyVal) (jk : String) (sub : Bool) (e : QError)
    (h : QueryElement.create a jk sub = .error e) : e = QError.invalidArgument a := by
  cases a with
  | pyStr s => simp [QueryElement.create] at h
  | pyNone => simp [QueryElement.create] at h; exact h.symm
  | pyInt n => simp [QueryElement.create] at h; exact h.symm
  | pyTuple items =>
    match items with
    | [] => simp [QueryElement.create] at h; exact h.symm
    | [x] => simp [QueryElement.create] at h; exact h.symm
    | [x, y] => simp [QueryElement.create] at h
    | x :: y :: z :: t => simp [QueryElement.create] at h; exact h.symm

lemma addElems_error_invalid (kw : SQLKeyword) (jk : String) :
    ∀ (args : List PyVal) (q : Query) (e : QError),
      (Query.addElems q kw jk args).2 = some e → ∃ a, e = QError.invalidArgument a := by
  intro args
  induction args with
  | nil => intro q e h; simp [Query.addElems] at h
  | cons a rest ih =>
    intro q e h
    rw [Query.addElems] at h
    cases hc : QueryElement.create a jk (Query.SUBQUERY_KEYWORDS.contains kw) with
    | error e2 =>
      rw [hc] at h
      simp at h
      exact ⟨a, by rw [← h]; exact create_error_eq a jk _ e2 hc⟩
    | ok el =>
      rw [hc] at h
      exact ih _ _ h

/-- Any failing `add` call either failed with `InvalidArgument` from the
element loop, or failed before any mutation and left every store unchanged. -/
lemma add_error_cases (q : Query) (name : String) (args : List PyVal) (e : QError)
    (h : (q.add name args).2 = some e) :
    (∃ a, e = QError.invalidArgument a) ∨
      ∀ k, ((q.add name args).1).clauses k = q.clauses k := by
  unfold Query.add at h ⊢
  cases hp : Query._parse_flag (Query._resolve_join_alias name).1 with
  | error e2 => right; intro k; rfl
  | ok af =>
    rw [hp] at h
    obtain ⟨actual, flag⟩ := af
    dsimp only at h ⊢
    cases hk : SQLKeyword.ofString? actual with
    | none => right; intro k; rfl
    | some kw =>
      rw [hk] at h
      dsimp only at h ⊢
      by_cases hf : (flag != "") = true
      · rw [if_pos hf] at h
        cases hs : (q.clauses kw).set_flag flag with
        | error e2 => right; intro k; simp only [hk, if_pos hf, hs]
        | ok cc2 =>
          rw [hs] at h
          exact Or.inl (addElems_error_invalid kw _ args _ e h)
      · rw [if_neg hf] at h
        exact Or.inl (addElems_error_invalid kw _ args _ e h)

/-- Claim C1 (amended, corrected): an `add` call that fails with
`UnsupportedClause`, `FlagConflict`, or the index error on an empty clause
name leaves every clause store of the builder unchanged; atomicity does not
extend to `InvalidArgument` failures from the element loop, which keep the
mutations made before the offending fragment. -/
theorem add_error_atomic_unless_invalidArgument (q : Query) (name : String)
    (args : List PyVal) (e : QError) (h : (q.add name args).2 = some e)
    (hnia : ∀ a, e ≠ QError.invalidArgument a) (k : SQLKeyword) :
    ((q.add name args).1).clauses k = q.clauses k := by
  rcases add_error_cases q name args e h with ⟨a, ha⟩ | hq
  · exact absurd ha (hnia a)
  · exact hq k

theorem add_error_atomic_witness :
    ((Query.init.add "FOO" []).1).clauses SQLKeyword.SELECT
      = Query.init.clauses SQLKeyword.SELECT :=
  add_error_atomic_unless_invalidArgument Query.init "FOO" []
    (QError.unsupportedClause "FOO") rfl (fun _ ha => QError.noConfusion ha)
    SQLKeyword.SELECT

/-- Claim C1 counterexample: `add("SELECT DISTINCT", "a", 7)` raises
`InvalidArgument` on its second fragment, yet the first fragment has already
been appended to the SELECT store and the DISTINCT flag has been set, so the
failing call did mutate the builder. -/
theorem add_partial_mutation_cex :
    (Query.init.add "SELECT DISTINCT" [PyVal.pyStr "a", PyVal.pyInt 7]).2
        = some (QError.invalidArgument (PyVal.pyInt 7))
    ∧ ((Query.init.add "SELECT DISTINCT" [PyVal.pyStr "a", PyVal.pyInt 7]).1.clauses
        SQLKeyword.SELECT).elements = [{ value := "a" }]
    ∧ ((Query.init.add "SELECT DISTINCT" [PyVal.pyStr "a", PyVal.pyInt 7]).1.clauses
        SQLKeyword.SELECT).flag = some "DISTINCT" :=
  ⟨rfl, rfl, rfl⟩

/-- Claim C10 (confirmed): an `add` call that fails keyword resolution with
`UnsupportedClause` leaves every clause store unchanged — join-alias
resolution, flag parsing, and keyword lookup all happen before any flag is
set or element appended. -/
theorem add_unsupported_leaves_unchanged (q : Query) (name : String)
    (args : List PyVal) (s : String)
    (h : (q.add name args).2 = some (QError.unsupportedClause s)) (k : SQLKeyword) :
    ((q.add name args).1).clauses k = q.clauses k := by
  rcases add_error_cases q name args _ h with ⟨a, ha⟩ | hq
  · exact QError.noConfusion ha
  · exact hq k

theorem add_unsupported_witness :
    ((Query.init.add "MERGE" [PyVal.pyStr "INTO target"]).1).clauses SQLKeyword.FROM
      = Query.init.clauses SQLKeyword.FROM :=
  add_unsupported_leaves_unchanged Query.init "MERGE" [PyVal.pyStr "INTO target"]
    "MERGE" rfl SQLKeyword.FROM

/-! ### Flags, rendering direction, element shapes -/

/-- Claim C6 (confirmed): applying a flag to a clause store that already
holds a flag fails with `FlagConflict` — whether the new flag equals the
stored one or not — and concretely `add("SELECT DISTINCT","x")` followed by
`add("SELECT ALL","y")` raises `FlagConflict` while the first flag and the
stored elements stay untouched. -/
theorem set_flag_conflict (c : ClauseCollection) (f0 f : String)
    (h : c.flag = some f0) (h0 : f0 ≠ "") :
    c.set_flag f = .error (QError.flagConflict f0 f)
    ∧ (Query.init.add "SELECT DISTINCT" [PyVal.pyStr "x"]).2 = none
    ∧ ((Query.init.add "SELECT DISTINCT" [PyVal.pyStr "x"]).1.add "SELECT ALL"
        [PyVal.pyStr "y"]).2 = some (QError.flagConflict "DISTINCT" "ALL")
    ∧ (((Query.init.add "SELECT DISTINCT" [PyVal.pyStr "x"]).1.add "SELECT ALL"
        [PyVal.pyStr "y"]).1.clauses SQLKeyword.SELECT).flag = some "DISTINCT"
    ∧ (((Query.init.add "SELECT DISTINCT" [PyVal.pyStr "x"]).1.add "SELECT ALL"
        [PyVal.pyStr "y"]).1.clauses SQLKeyword.SELECT).elements = [{ value := "x" }] := by
  refine ⟨?_, rfl, rfl, rfl, rfl⟩
  simp [ClauseCollection.set_flag, ClauseCollection.flagTruthy, h, h0]

theorem set_flag_conflict_witness :
    ClauseCollection.set_flag { elements := [], flag := some "DISTINCT" } "ALL"
      = .error (QError.flagConflict "DISTINCT" "ALL") :=
  (set_flag_conflict { elements := [], flag := some "DISTINCT" } "DISTINCT" "ALL"
    rfl (by decide)).1

/-- Claim C8 (confirmed): on a fresh builder, the fluent chain
`Query().SELECT("*").FROM("users")` (dispatched through the uppercase
attribute hook) succeeds and `build()` returns exactly
`"SELECT\n    *\nFROM\n    users"`. -/
theorem select_from_users_build :
    Query.getattr Query.init "SELECT" [PyVal.pyStr "*"]
        = some (Query.init.add "SELECT" [PyVal.pyStr "*"])
    ∧ (Query.init.add "SELECT" [PyVal.pyStr "*"]).2 = none
    ∧ Query.getattr (Query.init.add "SELECT" [PyVal.pyStr "*"]).1 "FROM"
        [PyVal.pyStr "users"]
        = some ((Query.init.add "SELECT" [PyVal.pyStr "*"]).1.add "FROM"
            [PyVal.pyStr "users"])
    ∧ ((Query.init.add "SELECT" [PyVal.pyStr "*"]).1.add "FROM" [PyVal.pyStr "users"]).2
        = none
    ∧ ((Query.init.add "SELECT" [PyVal.pyStr "*"]).1.add "FROM"
        [PyVal.pyStr "users"]).1.build = "SELECT\n    *\nFROM\n    users" :=
  ⟨rfl, rfl, rfl, rfl, rfl⟩

/-- Claim C9 (confirmed): a clause store with a flag but no elements
contributes nothing to `build()` — emptiness is judged on elements alone —
so `Query().add("SELECT DISTINCT")` with no fragments builds to the empty
string although the flag was recorded. -/
theorem flag_only_clause_renders_nothing :
    (∀ (kw : SQLKeyword) (c : ClauseCollection), c.elements = [] →
      Query.renderClause kw c = [])
    ∧ (Query.init.add "SELECT DISTINCT" []).2 = none
    ∧ ((Query.init.add "SELECT DISTINCT" []).1.clauses SQLKeyword.SELECT).flag
        = some "DISTINCT"
    ∧ (Query.init.add "SELECT DISTINCT" []).1.build = "" := by
  refine ⟨?_, rfl, rfl, rfl⟩
  intro kw c h
  simp [Query.renderClause, ClauseCollection.is_empty, h]

theorem flag_only_clause_witness :
    Query.renderClause SQLKeyword.SELECT { elements := [], flag := some "DISTINCT" } = [] :=
  flag_only_clause_renders_nothing.1 SQLKeyword.SELECT
    { elements := [], flag := some "DISTINCT" } rfl

/-- Claim C4 counterexample: the WITH clause marks its elements as
subqueries, so `WITH(("cte","SELECT 1"))` renders the element as
`"cte AS (\n    SELECT 1\n)"` — not as the claimed `"cte AS SELECT 1"`. -/
theorem with_alias_renders_wrapped_cex :
    (Query.init.add "WITH" [PyVal.pyTuple [PyVal.pyStr "cte", PyVal.pyStr "SELECT 1"]]).2
        = none
    ∧ ((Query.init.add "WITH" [PyVal.pyTuple [PyVal.pyStr "cte",
        PyVal.pyStr "SELECT 1"]]).1.clauses SQLKeyword.WITH).elements.map
        (Query._format_element SQLKeyword.WITH) = ["cte AS (\n    SELECT 1\n)"]
    ∧ ("cte AS (\n    SELECT 1\n)" : String) ≠ "cte AS SELECT 1" :=
  ⟨rfl, rfl, by decide⟩

/-- Claim C4 (amended, corrected): the alias direction depends on the
keyword — WITH puts the alias before the text while every other keyword puts
the text before the alias — but a WITH alias pair additionally wraps its
body in parentheses as a subquery, so `WITH(("cte","SELECT 1"))` renders as
`"cte AS (\n    SELECT 1\n)"` while `SELECT(("alias","col"))` renders as
`"col AS alias"`. -/
theorem alias_direction_amended :
    ((Query.init.add "WITH" [PyVal.pyTuple [PyVal.pyStr "cte",
        PyVal.pyStr "SELECT 1"]]).1.clauses SQLKeyword.WITH).elements.map
        (Query._format_element SQLKeyword.WITH) = ["cte AS (\n    SELECT 1\n)"]
    ∧ ((Query.init.add "SELECT" [PyVal.pyTuple [PyVal.pyStr "alias",
        PyVal.pyStr "col"]]).1.clauses SQLKeyword.SELECT).elements.map
        (Query._format_element SQLKeyword.SELECT) = ["col AS alias"]
    ∧ (∀ (kw : SQLKeyword) (el : QueryElement), kw ≠ SQLKeyword.WITH →
        el.«alias» ≠ "" → el.is_subquery = false →
        Query._format_element kw el = el.value ++ " AS " ++ el.«alias»)
    ∧ (∀ el : QueryElement, el.«alias» ≠ "" → el.is_subquery = false →
        Query._format_element SQLKeyword.WITH el = el.«alias» ++ " AS " ++ el.value) := by
  refine ⟨rfl, rfl, ?_, ?_⟩
  · intro kw el hkw ha hs
    simp [Query._format_element, hs, ha, hkw]
  · intro el ha hs
    simp [Query._format_element, hs, ha]

theorem alias_direction_witness :
    Query._format_element SQLKeyword.FROM
      { value := "t", «alias» := "x" } = "t AS x" :=
  alias_direction_amended.2.2.1 SQLKeyword.FROM
    { value := "t", «alias» := "x" } (by decide) (by decide) rfl

/-- Claim C5 counterexample: a two-item pair whose second item is `None` is
not rejected — `QueryElement.create(("a", None))` succeeds, stringifying the
null value into the text `"None"`. -/
theorem create_pair_none_cex :
    QueryElement.create (PyVal.pyTuple [PyVal.pyStr "a", PyVal.pyNone]) "" false
      = .ok { value := "None", «alias» := "a" } := rfl

/-- Claim C5 (amended, corrected): element construction succeeds exactly on
a plain string or a two-item list/tuple — wrong arity and wrong-type plain
values (such as a bare null) fail with an `InvalidArgument` error carrying
the offending input — but the items inside a two-item pair are stringified
rather than validated, so a null pair item does not fail. -/
theorem create_shape_amended (a : PyVal) (jk : String) (sub : Bool) :
    ((∃ el, QueryElement.create a jk sub = .ok el) ↔
      ((∃ s, a = PyVal.pyStr s) ∨ (∃ x y, a = PyVal.pyTuple [x, y])))
    ∧ (QueryElement.create a jk sub = .error (QError.invalidArgument a)
        ∨ ∃ el, QueryElement.create a jk sub = .ok el) := by
  constructor
  · constructor
    · rintro ⟨el, hel⟩
      cases a with
      | pyStr s => exact Or.inl ⟨s, rfl⟩
      | pyNone => simp [QueryElement.create] at hel
      | pyInt n => simp [QueryElement.create] at hel
      | pyTuple items =>
        match items with
        | [] => simp [QueryElement.create] at hel
        | [x] => simp [QueryElement.create] at hel
        | [x, y] => exact Or.inr ⟨x, y, rfl⟩
        | x :: y :: z :: t => simp [QueryElement.create] at hel
    · rintro (⟨s, rfl⟩ | ⟨x, y, rfl⟩)
      · exact ⟨_, rfl⟩
      · exact ⟨_, rfl⟩
  · cases a with
    | pyStr s => exact Or.inr ⟨_, rfl⟩
    | pyNone => exact Or.inl rfl
    | pyInt n => exact Or.inl rfl
    | pyTuple items =>
      match items with
      | [] => exact Or.inl rfl
      | [x] => exact Or.inl rfl
      | [x, y] => exact Or.inr ⟨_, rfl⟩
      | x :: y :: z :: t => exact Or.inl rfl

theorem create_shape_witness :
    QueryElement.create (PyVal.pyInt 3) "" false
      = .error (QError.invalidArgument (PyVal.pyInt 3)) := by
  rcases (create_shape_amended (PyVal.pyInt 3) "" false).2 with h | ⟨el, hel⟩
  · exact h
  · exact Except.noConfusion hel

/-! ### Flag parsing -/

lemma keyword_ofString_value {b : String} {kw : SQLKeyword}
    (h : SQLKeyword.ofString? b = some kw) : kw.value = b := by
  have h2 := List.find?_some h
  exact eq_of_beq h2

lemma flag_ofString_value {s : String} {fl : SQLFlag}
    (h : SQLFlag.ofString? s = some fl) : fl.value = s := by
  have h2 := List.find?_some h
  exact eq_of_beq h2

/-- Claim C2 counterexample: the three-token clause name
`"SELECT DISTINCT extra"` is not left untouched and rejected — flag parsing
inspects only the first two tokens, so the call succeeds and records the
DISTINCT flag, silently dropping `"extra"`. -/
theorem parse_flag_three_tokens_cex :
    Query._parse_flag "SELECT DISTINCT extra" = .ok ("SELECT", "DISTINCT")
    ∧ (Query.init.add "SELECT DISTINCT extra" [PyVal.pyStr "x"]).2 = none
    ∧ ((Query.init.add "SELECT DISTINCT extra" [PyVal.pyStr "x"]).1.clauses
        SQLKeyword.SELECT).flag = some "DISTINCT" :=
  ⟨rfl, rfl, rfl⟩

/-- Claim C2 (amended, corrected): flag parsing inspects only the first two
whitespace-separated tokens of the (join-resolved) clause name: whenever
there are two or more tokens whose first is the flaggable keyword SELECT and
whose second is DISTINCT or ALL, the name collapses to that pair — any
further tokens are silently dropped; with exactly one token the name is left
untouched; with zero tokens the indexing of `parts[0]` fails; in every other
multi-token case the name is left untouched, to be rejected at keyword
resolution. -/
theorem parse_flag_characterization (name : String) :
    Query._parse_flag name =
      match pySplitWs name with
      | [] => .error QError.indexError
      | [_] => .ok (name, "")
      | b :: f :: _ =>
        if b = "SELECT" ∧ (f = "DISTINCT" ∨ f = "ALL") then .ok (b, f)
        else .ok (name, "") := by
  unfold Query._parse_flag
  cases hs : pySplitWs name with
  | nil => rfl
  | cons b rest =>
    cases rest with
    | nil => rfl
    | cons f rest2 =>
      dsimp only
      by_cases hb : b = "SELECT"
      · subst hb
        rw [show SQLKeyword.ofString? "SELECT" = some SQLKeyword.SELECT from rfl]
        dsimp only [Query.FLAGGABLE_KEYWORDS]
        by_cases hf1 : f = "DISTINCT"
        · subst hf1
          rw [show SQLFlag.ofString? "DISTINCT" = some SQLFlag.DISTINCT from rfl]
          simp
        · by_cases hf2 : f = "ALL"
          · subst hf2
            rw [show SQLFlag.ofString? "ALL" = some SQLFlag.ALL from rfl]
            simp
          · have hn : SQLFlag.ofString? f = none := by
              cases hq : SQLFlag.ofString? f with
              | none => rfl
              | some fl =>
                have hv := flag_ofString_value hq
                cases fl with
                | DISTINCT => exact absurd hv.symm hf1
                | ALL => exact absurd hv.symm hf2
            rw [hn]
            rw [if_neg (fun hc => hc.2.elim hf1 hf2)]
      · cases hk : SQLKeyword.ofString? b with
        | none => rw [if_neg (fun hc => hb hc.1)]
        | some kw =>
          have hv := keyword_ofString_value hk
          cases kw with
          | SELECT => exact absurd hv.symm hb
          | WITH =>
            dsimp only [Query.FLAGGABLE_KEYWORDS]
            rw [if_neg (fun hc => hb hc.1)]
          | FROM =>
            dsimp only [Query.FLAGGABLE_KEYWORDS]
            rw [if_neg (fun hc => hb hc.1)]
          | WHERE =>
            dsimp only [Query.FLAGGABLE_KEYWORDS]
            rw [if_neg (fun hc => hb hc.1)]
          | GROUP_BY =>
            dsimp only [Query.FLAGGABLE_KEYWORDS]
            rw [if_neg (fun hc => hb hc.1)]
          | HAVING =>
            dsimp only [Query.FLAGGABLE_KEYWORDS]
            rw [if_neg (fun hc => hb hc.1)]
          | ORDER_BY =>
            dsimp only [Query.FLAGGABLE_KEYWORDS]
            rw [if_neg (fun hc => hb hc.1)]
          | LIMIT =>
            dsimp only [Query.FLAGGABLE_KEYWORDS]
            rw [if_neg (fun hc => hb hc.1)]

/-! ### Join grouping -/

lemma indent_empty : _indent_text "" = "" := rfl

lemma foldl_insertGroup_inv (els : List QueryElement) :
    ∀ (d : List QueryElement) (gs : List (String × List QueryElement)),
      (∀ p ∈ gs, p.1 ≠ "" ∧ p.2 ≠ []) →
      ∃ gs2, List.foldl Query.insertGroup (("", d) :: gs) els
          = ("", d ++ els.filter (fun e => e.join_keyword == "")) :: gs2
        ∧ ∀ p ∈ gs2, p.1 ≠ "" ∧ p.2 ≠ [] := by
  induction els with
  | nil => intro d gs hgs; exact ⟨gs, by simp, hgs⟩
  | cons el rest ih =>
    intro d gs hgs
    rw [List.foldl_cons]
    by_cases hjk : el.join_keyword = ""
    · have hmapgs : gs.map
          (fun p => if p.1 == el.join_keyword then (p.1, p.2 ++ [el]) else p) = gs := by
        have hcong : ∀ p ∈ gs,
            (if p.1 == el.join_keyword then (p.1, p.2 ++ [el]) else p) = p := by
          intro p hp
          have hc : (p.1 == el.join_keyword) = false := by
            rw [hjk]
            exact beq_eq_false_iff_ne.mpr (hgs p hp).1
          rw [hc]
          simp
        rw [List.map_congr_left hcong]
        simp
      have hstep : Query.insertGroup (("", d) :: gs) el = ("", d ++ [el]) :: gs := by
        unfold Query.insertGroup
        rw [if_pos (by simp [hjk])]
        rw [List.map_cons, hmapgs]
        congr 1
        rw [show (("" : String) == el.join_keyword) = true by simp [hjk]]
        simp
      rw [hstep]
      rcases ih (d ++ [el]) gs hgs with ⟨gs2, heq, hinv⟩
      refine ⟨gs2, ?_, hinv⟩
      rw [heq]
      rw [List.filter_cons_of_pos (by simp [hjk]), List.append_assoc]
      rfl
    · have hhead : (("" : String) == el.join_keyword) = false :=
        beq_eq_false_iff_ne.mpr (fun h => hjk h.symm)
      have hfilt : (el :: rest).filter (fun e => e.join_keyword == "")
          = rest.filter (fun e => e.join_keyword == "") :=
        List.filter_cons_of_neg (by simp [hjk])
      by_cases hany : gs.any (fun p => p.1 == el.join_keyword) = true
      · have hstep : Query.insertGroup (("", d) :: gs) el
            = ("", d) :: gs.map
              (fun p => if p.1 == el.join_keyword then (p.1, p.2 ++ [el]) else p) := by
          unfold Query.insertGroup
          rw [if_pos (by simp [List.any_cons, hhead, hany])]
          rw [List.map_cons, hhead]
          simp
        rw [hstep]
        have hinv2 : ∀ p ∈ gs.map
            (fun p => if p.1 == el.join_keyword then (p.1, p.2 ++ [el]) else p),
            p.1 ≠ "" ∧ p.2 ≠ [] := by
          intro p hp
          rcases List.mem_map.mp hp with ⟨p0, hp0, hfp⟩
          by_cases hc : (p0.1 == el.join_keyword) = true
          · rw [hc] at hfp
            simp only [if_true] at hfp
            rw [← hfp]
            exact ⟨(hgs p0 hp0).1, by simp⟩
          · rw [eq_false_of_ne_true hc] at hfp
            simp only [Bool.false_eq_true, if_false] at hfp
            rw [← hfp]
            exact hgs p0 hp0
        rcases ih d _ hinv2 with ⟨gs2, heq, hinv⟩
        refine ⟨gs2, ?_, hinv⟩
        rw [heq, hfilt]
      · have hstep : Query.insertGroup (("", d) :: gs) el
            = ("", d) :: (gs ++ [(el.join_keyword, [el])]) := by
          unfold Query.insertGroup
          rw [if_neg (by
            simp only [List.any_cons, hhead, Bool.false_or]
            exact hany)]
          rfl
        rw [hstep]
        have hinv2 : ∀ p ∈ gs ++ [(el.join_keyword, [el])], p.1 ≠ "" ∧ p.2 ≠ [] := by
          intro p hp
          rcases List.mem_append.mp hp with hp1 | hp2
          · exact hgs p hp1
          · rcases List.mem_singleton.mp hp2 with rfl
            exact ⟨hjk, by simp⟩
        rcases ih d _ hinv2 with ⟨gs2, heq, hinv⟩
        refine ⟨gs2, ?_, hinv⟩
        rw [heq, hfilt]

/-- Claim C3 counterexample: for a clause whose every element is join-tagged
(`add("LEFT JOIN", ...)` on a fresh builder), the empty default group still
contributes an (empty) output part, so `build()` emits a blank line between
the `FROM` keyword and the `LEFT JOIN` line — the claimed output without
that line is not produced. -/
theorem join_only_clause_blank_line_cex :
    ((Query.init.add "LEFT JOIN" [PyVal.pyStr "posts p ON u.id = p.user_id"]).1).build
        = "FROM\n\nLEFT JOIN\n    posts p ON u.id = p.user_id"
    ∧ ((Query.init.add "LEFT JOIN" [PyVal.pyStr "posts p ON u.id = p.user_id"]).1).build
        ≠ "FROM\nLEFT JOIN\n    posts p ON u.id = p.user_id" :=
  ⟨rfl, by decide⟩

/-- Claim C3 (amended, corrected): grouping keys the elements by join tag in
first-seen order with the untagged default group always first (so untagged
elements render before any tagged group), and every tagged group is
non-empty; but the always-present default group, when it has no elements, is
not skipped — it still contributes an empty part, which `build()` turns into
a blank output line after the keyword line. -/
theorem group_untagged_first_amended (kw : SQLKeyword) (els : List QueryElement) :
    (∃ gs, Query._group_elements_by_join els
        = ("", els.filter (fun e => e.join_keyword == "")) :: gs
      ∧ ∀ p ∈ gs, p.1 ≠ "" ∧ p.2 ≠ [])
    ∧ (els ≠ [] → els.filter (fun e => e.join_keyword == "") = [] →
        ∃ rest, Query.renderClause kw { elements := els, flag := none }
          = kw.value :: "" :: rest) := by
  have hmain := foldl_insertGroup_inv els [] [] (by simp)
  constructor
  · simpa [Query._group_elements_by_join] using hmain
  · intro hne hfilt
    rcases hmain with ⟨gs2, heq, _⟩
    refine ⟨(gs2.map (fun g =>
      (if g.1 == "" then [] else [g.1]) ++
      [_indent_text (joinSep (Query.clauseSeparator kw)
        (g.2.map (Query._format_element kw)))])).flatten, ?_⟩
    unfold Query.renderClause
    rw [if_neg (by simp [ClauseCollection.is_empty, hne])]
    dsimp only
    have hgrp : Query._group_elements_by_join els = ("", []) :: gs2 := by
      unfold Query._group_elements_by_join
      rw [heq, hfilt]
      rfl
    rw [hgrp]
    rw [List.map_cons, List.flatten_cons]
    rfl

theorem group_untagged_first_witness :
    ∃ rest, Query.renderClause SQLKeyword.FROM
        { elements := [{ value := "x", join_keyword := "LEFT JOIN" }], flag := none }
        = "FROM" :: "" :: rest :=
  (group_untagged_first_amended SQLKeyword.FROM
    [{ value := "x", join_keyword := "LEFT JOIN" }]).2 (by simp) rfl

/-! ### Order invariance across keywords -/

lemma setClause_clauses (q : Query) (k : SQLKeyword) (c : ClauseCollection)
    (k2 : SQLKeyword) :
    (q.setClause k c).clauses k2 = if k2 = k then c else q.clauses k2 := rfl

lemma addElems_clauses_other (kw : SQLKeyword) (jk : String) (args : List PyVal) :
    ∀ (q : Query) (k : SQLKeyword), k ≠ kw →
      ((Query.addElems q kw jk args).1).clauses k = q.clauses k := by
  induction args with
  | nil => intro q k _; rfl
  | cons a rest ih =>
    intro q k hk
    rw [Query.addElems]
    cases hc : QueryElement.create a jk (Query.SUBQUERY_KEYWORDS.contains kw) with
    | error e => rfl
    | ok el =>
      rw [ih _ k hk, setClause_clauses, if_neg hk]

lemma add_clauses_other (name : String) (args : List PyVal) (k : SQLKeyword)
    (h : Query.resolveKw name ≠ some k) :
    ∀ q : Query, ((q.add name args).1).clauses k = q.clauses k := by
  intro q
  unfold Query.add
  unfold Query.resolveKw at h
  cases hp : Query._parse_flag (Query._resolve_join_alias name).1 with
  | error e => rfl
  | ok af =>
    rw [hp] at h
    obtain ⟨actual, flag⟩ := af
    dsimp only at h ⊢
    cases hk : SQLKeyword.ofString? actual with
    | none => rfl
    | some kw =>
      rw [hk] at h
      have hkk : k ≠ kw := fun he => h (by rw [he])
      dsimp only
      by_cases hf : (flag != "") = true
      · rw [if_pos hf]
        cases hs : (q.clauses kw).set_flag flag with
        | error e => rfl
        | ok cc2 =>
          rw [addElems_clauses_other kw _ args _ k hkk, setClause_clauses, if_neg hkk]
      · rw [if_neg hf]
        exact addElems_clauses_other kw _ args q k hkk

lemma addElems_clauses_congr (kw : SQLKeyword) (jk : String) (args : List PyVal) :
    ∀ q q' : Query, q.clauses kw = q'.clauses kw →
      ((Query.addElems q kw jk args).1).clauses kw
        = ((Query.addElems q' kw jk args).1).clauses kw := by
  induction args with
  | nil => intro q q' h; exact h
  | cons a rest ih =>
    intro q q' h
    rw [Query.addElems, Query.addElems]
    cases hc : QueryElement.create a jk (Query.SUBQUERY_KEYWORDS.contains kw) with
    | error e => exact h
    | ok el =>
      apply ih
      rw [setClause_clauses, setClause_clauses, if_pos rfl, if_pos rfl, h]

lemma add_clauses_congr (name : String) (args : List PyVal) (kw : SQLKeyword)
    (hkw : Query.resolveKw name = some kw) :
    ∀ q q' : Query, q.clauses kw = q'.clauses kw →
      ((q.add name args).1).clauses kw = ((q'.add name args).1).clauses kw := by
  intro q q' h
  unfold Query.add
  unfold Query.resolveKw at hkw
  cases hp : Query._parse_flag (Query._resolve_join_alias name).1 with
  | error e => exact h
  | ok af =>
    rw [hp] at hkw
    obtain ⟨actual, flag⟩ := af
    dsimp only at hkw ⊢
    cases hk : SQLKeyword.ofString? actual with
    | none => exact h
    | some kw2 =>
      rw [hk] at hkw
      have he : kw2 = kw := Option.some.inj hkw
      subst he
      dsimp only
      by_cases hf : (flag != "") = true
      · rw [if_pos hf, if_pos hf, h]
        cases hs : (q'.clauses kw2).set_flag flag with
        | error e => exact h
        | ok cc2 =>
          apply addElems_clauses_congr
          rw [setClause_clauses, setClause_clauses, if_pos rfl, if_pos rfl]
      · rw [if_neg hf, if_neg hf]
        exact addElems_clauses_congr kw2 _ args q q' h

/-- Claim C7 (confirmed): render order is fixed by the keyword enumeration,
not by call order — two `add` calls that resolve to different keywords can
be performed in either order on an empty builder and `build()` returns the
same string. -/
theorem add_keyword_order_invariance (n1 n2 : String) (a1 a2 : List PyVal)
    (k1 k2 : SQLKeyword) (h1 : Query.resolveKw n1 = some k1)
    (h2 : Query.resolveKw n2 = some k2) (hne : k1 ≠ k2) :
    (((Query.init.add n1 a1).1).add n2 a2).1.build
      = (((Query.init.add n2 a2).1).add n1 a1).1.build := by
  have hpt : ∀ k, ((((Query.init.add n1 a1).1).add n2 a2).1).clauses k
      = ((((Query.init.add n2 a2).1).add n1 a1).1).clauses k := by
    intro k
    by_cases e1 : k = k1
    · subst e1
      have hcond : Query.resolveKw n2 ≠ some k := by
        rw [h2]
        intro hc
        exact hne (Option.some.inj hc).symm
      rw [add_clauses_other n2 a2 k hcond]
      exact (add_clauses_congr n1 a1 k h1 _ Query.init
        (add_clauses_other n2 a2 k hcond Query.init)).symm
    · by_cases e2 : k = k2
      · subst e2
        have hcond : Query.resolveKw n1 ≠ some k := by
          rw [h1]
          intro hc
          exact hne (Option.some.inj hc)
        rw [add_clauses_other n1 a1 k hcond]
        exact add_clauses_congr n2 a2 k h2 _ Query.init
          (add_clauses_other n1 a1 k hcond Query.init)
      · have hc1 : Query.resolveKw n1 ≠ some k := by
          rw [h1]
          intro hc
          exact e1 (Option.some.inj hc).symm
        have hc2 : Query.resolveKw n2 ≠ some k := by
          rw [h2]
          intro hc
          exact e2 (Option.some.inj hc).symm
        have l1 := add_clauses_other n2 a2 k hc2 ((Query.init.add n1 a1).1)
        have l2 := add_clauses_other n1 a1 k hc1 Query.init
        have r1 := add_clauses_other n1 a1 k hc1 ((Query.init.add n2 a2).1)
        have r2 := add_clauses_other n2 a2 k hc2 Query.init
        rw [l1, l2, r1, r2]
  unfold Query.build
  congr 1
  congr 1
  exact List.map_congr_left (fun kw _ => by rw [hpt kw])

theorem add_keyword_order_invariance_witness :
    (((Query.init.add "WHERE" [PyVal.pyStr "active = 1"]).1).add "SELECT"
        [PyVal.pyStr "name"]).1.build
      = (((Query.init.add "SELECT" [PyVal.pyStr "name"]).1).add "WHERE"
        [PyVal.pyStr "active = 1"]).1.build :=
  add_keyword_order_invariance "WHERE" "SELECT" [PyVal.pyStr "active = 1"]
    [PyVal.pyStr "name"] SQLKeyword.WHERE SQLKeyword.SELECT rfl rfl (by decide)
